import Mathlib

/-!
Verification development for the visualization core of the paper_connector
frontend: the stacked flow chart (FlowVisualization) and the force-directed
cluster graph (ClusterGraph).  Screen coordinates and JavaScript numbers are
modelled as rationals; JavaScript records are modelled as association lists.
-/

namespace PaperConnector

/-- JavaScript Math.round on a rational: round half toward positive infinity. -/
def jsRound (q : ℚ) : ℤ := ⌊q + 1/2⌋

/-- One entry of FlowData.daily_data: a date and the per-cluster counts record. -/
structure DailyClusterCounts where
  date : String
  cluster_counts : List (String × ℚ)
deriving Repr, DecidableEq

/-- Models the expression day.cluster_counts[cluster] with a fallback of 0
(the source writes it with a logical-or, which maps an absent key, and a
zero value, to 0). -/
def lookupCount (cc : List (String × ℚ)) (k : String) : ℚ :=
  match cc.lookup k with
  | some v => v
  | none => 0

/-- The FlowData payload consumed by FlowVisualization. -/
structure FlowData where
  start_date : String
  end_date : String
  clusters : List String
  colors : List (String × String)
  daily_data : List DailyClusterCounts
deriving Repr, DecidableEq

/-- One band of a stacked day, as pushed into the values array. -/
structure StackValue where
  cluster : String
  y0 : ℚ
  y1 : ℚ
  count : ℚ
deriving Repr, DecidableEq

/-- Default StackValue, used only as the out-of-range result of getD. -/
def vDefault : StackValue := { cluster := "", y0 := 0, y1 := 0, count := 0 }

/-- One stacked day as pushed into stackedData. -/
structure StackedDay where
  date : String
  values : List StackValue
  total : ℚ
deriving Repr, DecidableEq

/-- The inner forEach over clusters in processedData: starting from running
prefix y0, push one StackValue per cluster with y1 = y0 + count. -/
def stackValues (cc : List (String × ℚ)) : List String → ℚ → List StackValue
  | [], _ => []
  | c :: cs, y0 =>
    let count := lookupCount cc c
    { cluster := c, y0 := y0, y1 := y0 + count, count := count } ::
      stackValues cc cs (y0 + count)

/-- The total accumulator of the inner forEach: the sum of the day counts of
all clusters, in cluster order. -/
def dayTotal (cc : List (String × ℚ)) (clusters : List String) : ℚ :=
  (clusters.map (lookupCount cc)).sum

/-- One iteration of the outer forEach over daily_data in processedData. -/
def stackDay (clusters : List String) (d : DailyClusterCounts) : StackedDay :=
  { date := d.date
    values := stackValues d.cluster_counts clusters 0
    total := dayTotal d.cluster_counts clusters }

/-- JavaScript Math.max over a spread list together with the literal 1;
the empty spread yields negative infinity, so the result is the maximum of
the list elements and 1. -/
def listMax1 (l : List ℚ) : ℚ := l.foldl max 1

/-- The memoized processedData value of FlowVisualization. -/
structure ProcessedData where
  stackedData : List StackedDay
  dates : List String
  maxY : ℚ
  clusters : List String
deriving Repr, DecidableEq

/-- processedData: none when daily_data is empty, otherwise the stacked days,
the date list, the y-axis maximum floored to 1, and the cluster order. -/
def processedData (fd : FlowData) : Option ProcessedData :=
  if fd.daily_data.isEmpty then none
  else
    let stackedData := fd.daily_data.map (stackDay fd.clusters)
    some { stackedData := stackedData
           dates := fd.daily_data.map (fun d => d.date)
           maxY := listMax1 (stackedData.map (fun d => d.total))
           clusters := fd.clusters }

/-- Canvas dimensions held in component state. -/
structure Dimensions where
  width : ℚ
  height : ℚ
deriving Repr, DecidableEq

def marginTop : ℚ := 20
def marginRight : ℚ := 150
def marginBottom : ℚ := 50
def marginLeft : ℚ := 60

def innerWidth (dims : Dimensions) : ℚ := dims.width - marginLeft - marginRight
def innerHeight (dims : Dimensions) : ℚ := dims.height - marginTop - marginBottom

/-- JavaScript Array.indexOf on strings: index of the first occurrence,
or -1 when absent. -/
def jsIndexOf (l : List String) (s : String) : ℤ :=
  match l with
  | [] => -1
  | x :: xs =>
    if x = s then 0
    else
      let r := jsIndexOf xs s
      if r = -1 then -1 else r + 1

/-- The x-scale denominator Math.max(dates.length - 1, 1). -/
def dateDenom (pd : ProcessedData) : ℤ := max ((pd.dates.length : ℤ) - 1) 1

/-- The xScale closure of the scales memo. -/
def xScale (pd : ProcessedData) (dims : Dimensions) (date : String) : ℚ :=
  marginLeft + ((jsIndexOf pd.dates date : ℚ) / (dateDenom pd : ℚ)) * innerWidth dims

/-- The yScale closure of the scales memo. -/
def yScale (pd : ProcessedData) (dims : Dimensions) (value : ℚ) : ℚ :=
  marginTop + innerHeight dims - (value / pd.maxY) * innerHeight dims

/-- The tooltip payload (the fields the hit-test computes from the data;
the client pointer coordinates and the color string are omitted as pure
presentation). -/
structure TooltipData where
  date : String
  cluster : String
  count : ℚ
  total : ℚ
deriving Repr, DecidableEq

/-- The hit condition of the scan in handleMouseMove: the pointer y lies
between the band's two screen coordinates and the band count is positive. -/
def bandHit (pd : ProcessedData) (dims : Dimensions) (y : ℚ) (v : StackValue) : Bool :=
  decide (yScale pd dims v.y1 ≤ y) && decide (y ≤ yScale pd dims v.y0) &&
    decide (0 < v.count)

/-- The day index computation of handleMouseMove: round the relative x
position to the nearest date index, then clamp into range. -/
def clampedIdx (pd : ProcessedData) (dims : Dimensions) (x : ℚ) : ℤ :=
  let relX := x - marginLeft
  let dateIdx := jsRound ((relX / innerWidth dims) * ((pd.dates.length : ℚ) - 1))
  max 0 (min dateIdx ((pd.dates.length : ℤ) - 1))

/-- handleMouseMove of FlowVisualization, as the pair of states it writes:
the new hoveredCluster and the new tooltip.  tooltipPrev is the previous
tooltip state, kept unchanged on the (unreachable) branch where the found
cluster name is not refound in the day values. -/
def handleMouseMove (pd : ProcessedData) (dims : Dimensions) (x y : ℚ)
    (tooltipPrev : Option TooltipData) : Option String × Option TooltipData :=
  if x < marginLeft ∨ x > dims.width - marginRight ∨
      y < marginTop ∨ y > dims.height - marginBottom then
    (none, none)
  else
    match pd.stackedData[(clampedIdx pd dims x).toNat]? with
    | none => (none, none)
    | some day =>
      match day.values.find? (bandHit pd dims y) with
      | none => (none, none)
      | some v =>
        match day.values.find? (fun w => w.cluster == v.cluster) with
        | some w =>
          (some v.cluster,
           some { date := day.date, cluster := v.cluster, count := w.count,
                  total := day.total })
        | none => (some v.cluster, tooltipPrev)

/-- The percentage shown in the tooltip: Math.round of 100 times count over
total. -/
def tooltipPercent (t : TooltipData) : ℤ := jsRound ((t.count / t.total) * 100)

/-- handleClick of FlowVisualization, as the new selectedCluster plus the
notification handed to onClusterClick, computed from the current
hoveredCluster, selectedCluster and tooltip states.  The callback fires only
when a tooltip is present, with the hovered cluster name and the tooltip
date. -/
def handleClick (hoveredCluster selectedCluster : Option String)
    (tooltip : Option TooltipData) : Option String × Option (String × String) :=
  match hoveredCluster with
  | none => (selectedCluster, none)
  | some c =>
    (if selectedCluster = some c then none else some c,
     match tooltip with
     | some t => some (c, t.date)
     | none => none)

/-- The two render branches of FlowVisualization: the fallback message when
processedData is null, or the chart canvas. -/
inductive FlowView where
  | noDataMessage (msg : String)
  | chartCanvas (pd : ProcessedData)
deriving Repr, DecidableEq

/-- The component body of FlowVisualization: the early return with the
message div when processedData is null, otherwise the canvas chart. -/
def renderFlow (fd : FlowData) : FlowView :=
  match processedData fd with
  | none => FlowView.noDataMessage "No flow data available"
  | some pd => FlowView.chartCanvas pd

/-- The scales memo: null when processedData is null, otherwise the pair of
scale closures. -/
def scalesOf (fd : FlowData) (dims : Dimensions) :
    Option ((String → ℚ) × (ℚ → ℚ)) :=
  (processedData fd).map (fun pd => (xScale pd dims, yScale pd dims))

/-! ## The cluster graph (ClusterGraph component) -/

/-- A node of the ClusterGraphData payload. -/
structure ClusterNode where
  id : String
  name : String
  paperCount : ℚ
  topTaskTags : List String
  topModalities : List String
  paperIds : List String
deriving Repr, DecidableEq

/-- A link of the ClusterGraphData payload; source and target are node ids. -/
structure ClusterLink where
  source : String
  target : String
  sharedCount : ℚ
  sharedPaperIds : List String
deriving Repr, DecidableEq

/-- The ClusterGraphData payload consumed by ClusterGraph. -/
structure ClusterGraphData where
  nodes : List ClusterNode
  links : List ClusterLink
deriving Repr, DecidableEq

/-- The extended node record produced by transformedData: the node fields
spread plus the simulation fields, undefined before the first tick. -/
structure GraphNode where
  id : String
  name : String
  paperCount : ℚ
  topTaskTags : List String
  topModalities : List String
  paperIds : List String
  x : Option ℚ
  y : Option ℚ
  vx : Option ℚ
  vy : Option ℚ
deriving Repr, DecidableEq

/-- The extended link record produced by transformedData; at construction
time both endpoints are still the id strings of the payload. -/
structure GraphLink where
  source : String
  target : String
  sharedCount : ℚ
  sharedPaperIds : List String
deriving Repr, DecidableEq

/-- The spread of one payload node in transformedData. -/
def toGraphNode (n : ClusterNode) : GraphNode :=
  { id := n.id, name := n.name, paperCount := n.paperCount
    topTaskTags := n.topTaskTags, topModalities := n.topModalities
    paperIds := n.paperIds, x := none, y := none, vx := none, vy := none }

/-- The spread of one payload link in transformedData. -/
def toGraphLink (l : ClusterLink) : GraphLink :=
  { source := l.source, target := l.target, sharedCount := l.sharedCount
    sharedPaperIds := l.sharedPaperIds }

/-- transformedData of ClusterGraph: the node and link lists handed to the
force solver, each payload entry spread into its extended record.  No
filtering of any kind is performed. -/
def transformedData (g : ClusterGraphData) : List GraphNode × List GraphLink :=
  (g.nodes.map toGraphNode, g.links.map toGraphLink)

/-- maxPaperCount: Math.max over all node paper counts and 1. -/
def maxPaperCount (g : ClusterGraphData) : ℚ :=
  listMax1 (g.nodes.map (fun n => n.paperCount))

/-- maxLinkStrength: Math.max over all link shared counts and 1. -/
def maxLinkStrength (g : ClusterGraphData) : ℚ :=
  listMax1 (g.links.map (fun l => l.sharedCount))

/-- The base node radius of getNodeSize, before hover and selection scaling:
12 plus 28 times paperCount over maxPaperCount. -/
def nodeBaseSize (paperCount maxPC : ℚ) : ℚ := 12 + (paperCount / maxPC) * 28

/-- getNodeSize of ClusterGraph: the base size, enlarged 1.4 times when the
node is hovered or selected, shrunk to 0.75 when some other node is
hovered. -/
def getNodeSize (hoveredNode selectedNodeId : Option String)
    (maxPC : ℚ) (n : ClusterNode) : ℚ :=
  let baseSize := nodeBaseSize n.paperCount maxPC
  let isHovered := hoveredNode = some n.id
  let isSelected := selectedNodeId = some n.id
  let isOtherHovered := hoveredNode ≠ none ∧ hoveredNode ≠ some n.id
  if isHovered ∨ isSelected then baseSize * 1.4
  else if isOtherHovered then baseSize * 0.75
  else baseSize

/-- The base link width of getLinkWidth: 1 plus 5 times sharedCount over
maxLinkStrength. -/
def linkBaseWidth (sharedCount maxLS : ℚ) : ℚ := 1 + (sharedCount / maxLS) * 5

/-- The forceCollide radius callback: the base size recomputed from the
solver node, with a zero paper count replaced by 1 by the JavaScript
logical-or, plus the fixed 40 unit padding. -/
def collisionRadius (maxPC paperCount : ℚ) : ℚ :=
  12 + ((if paperCount = 0 then 1 else paperCount) / maxPC) * 28 + 40

/-- Whether some link of the snapshot has the given id as an endpoint; the
negation of membership in the connectedIds set. -/
def isConnectedId (g : ClusterGraphData) (id : String) : Bool :=
  g.links.any (fun l => l.source == id || l.target == id)

/-- isolatedNodeIds of ClusterGraph: the ids of nodes not appearing as any
link endpoint. -/
def isolatedNodeIds (g : ClusterGraphData) : List String :=
  (g.nodes.filter (fun n => !isConnectedId g n.id)).map (fun n => n.id)

/-- The strength callback shared by the forceX and forceY centering forces:
0.15 for ids in the isolated set, 0.02 otherwise. -/
def centeringStrength (g : ClusterGraphData) (id : String) : ℚ :=
  if (isolatedNodeIds g).contains id then 0.15 else 0.02

/-- The magnitude of the centering pull of forceX or forceY on a node at a
given distance from the viewport center: the d3 velocity increment is the
distance times the strength (times the simulation alpha, a shared positive
factor dropped here). -/
def centeringForceMagnitude (g : ClusterGraphData) (id : String) (dist : ℚ) : ℚ :=
  centeringStrength g id * dist

/-! ## Concrete sample data and derived notions used by the theorems -/

/-- The running prefix sum of the day counts of the first i clusters. -/
def prefixCount (cc : List (String × ℚ)) (cs : List String) (i : ℕ) : ℚ :=
  ((cs.take i).map (lookupCount cc)).sum

/-- Default daily record, used only as the out-of-range result of getD. -/
def dayDefault : DailyClusterCounts := { date := "", cluster_counts := [] }

/-- Concrete flow snapshot for the C1 witness: two clusters, one day. -/
def fdC1 : FlowData :=
  { start_date := "2024-01-01", end_date := "2024-01-01"
    clusters := ["X", "Y"], colors := []
    daily_data := [{ date := "2024-01-01", cluster_counts := [("X", 3), ("Y", 0)] }] }

/-- The single stacked day of the C1 witness snapshot. -/
def sdC1 : StackedDay :=
  { date := "2024-01-01"
    values := [{ cluster := "X", y0 := 0, y1 := 3, count := 3 },
               { cluster := "Y", y0 := 3, y1 := 3, count := 0 }]
    total := 3 }

/-- The processedData value of the C1 witness snapshot. -/
def pdC1 : ProcessedData :=
  { stackedData := [sdC1], dates := ["2024-01-01"], maxY := 3
    clusters := ["X", "Y"] }

/-- Flow data with empty daily_data for the C9 witness. -/
def fdC9 : FlowData :=
  { start_date := "2024-01-01", end_date := "2024-01-07"
    clusters := [], colors := [], daily_data := [] }

/-- Tooltip state for the C8 witness. -/
def tC8 : TooltipData :=
  { date := "2024-01-01", cluster := "X", count := 3, total := 3 }

/-- A node with paper count 0, used in the C5 counterexample. -/
def nodeA : ClusterNode :=
  { id := "a", name := "A", paperCount := 0, topTaskTags := []
    topModalities := [], paperIds := [] }

/-- A node with paper count 2. -/
def nodeB : ClusterNode :=
  { id := "b", name := "B", paperCount := 2, topTaskTags := []
    topModalities := [], paperIds := [] }

/-- A node with paper count 1. -/
def nodeC : ClusterNode :=
  { id := "c", name := "C", paperCount := 1, topTaskTags := []
    topModalities := [], paperIds := [] }

/-- Snapshot for the C5 counterexample: a zero-count node next to a node of
count 2, no links. -/
def gC5 : ClusterGraphData := { nodes := [nodeA, nodeB], links := [] }

/-- A link whose target id matches no node of gC3. -/
def lC3 : ClusterLink :=
  { source := "a", target := "ghost", sharedCount := 1, sharedPaperIds := [] }

/-- Snapshot with one node and one dangling link, for the C3 counterexample. -/
def gC3 : ClusterGraphData := { nodes := [nodeA], links := [lC3] }

/-- Snapshot for the C6 witness: node a isolated, b and c linked. -/
def gC6 : ClusterGraphData :=
  { nodes := [nodeA, nodeB, nodeC]
    links := [{ source := "b", target := "c", sharedCount := 1
                sharedPaperIds := [] }] }

/-- Empty graph snapshot for the C4 witness. -/
def gC4 : ClusterGraphData := { nodes := [], links := [] }

/-- Concrete canvas dimensions used by the hit-test witnesses: inner width
600 and inner height 400. -/
def dimsW : Dimensions := { width := 810, height := 470 }

/-- Flow snapshot for the C10 counterexample: one day with counts X 1 and
Y 299, so the X band is 1/300 of the day total. -/
def fdC10 : FlowData :=
  { start_date := "2024-01-01", end_date := "2024-01-01"
    clusters := ["X", "Y"], colors := []
    daily_data := [{ date := "2024-01-01"
                     cluster_counts := [("X", 1), ("Y", 299)] }] }

/-- The stacked day of the C10 snapshot. -/
def sdC10 : StackedDay :=
  { date := "2024-01-01"
    values := [{ cluster := "X", y0 := 0, y1 := 1, count := 1 },
               { cluster := "Y", y0 := 1, y1 := 300, count := 299 }]
    total := 300 }

/-- The processedData value of the C10 snapshot. -/
def pdC10 : ProcessedData :=
  { stackedData := [sdC10], dates := ["2024-01-01"], maxY := 300
    clusters := ["X", "Y"] }

/-- The tooltip emitted at the X band midpoint of the C10 snapshot. -/
def tC10 : TooltipData :=
  { date := "2024-01-01", cluster := "X", count := 1, total := 300 }

/-! ## Helper lemmas on the stack builder -/

lemma prefixCount_zero (cc : List (String × ℚ)) (cs : List String) :
    prefixCount cc cs 0 = 0 := rfl

lemma prefixCount_cons_succ (cc : List (String × ℚ)) (c : String)
    (cs : List String) (i : ℕ) :
    prefixCount cc (c :: cs) (i + 1) = lookupCount cc c + prefixCount cc cs i := by
  simp [prefixCount, List.take_succ_cons]

lemma stackValues_length (cc : List (String × ℚ)) (cs : List String) (y0 : ℚ) :
    (stackValues cc cs y0).length = cs.length := by
  induction cs generalizing y0 with
  | nil => rfl
  | cons c cs ih => simp [stackValues, ih]

lemma stackValues_map_cluster (cc : List (String × ℚ)) (cs : List String) (y0 : ℚ) :
    (stackValues cc cs y0).map StackValue.cluster = cs := by
  induction cs generalizing y0 with
  | nil => rfl
  | cons c cs ih => simp [stackValues, ih]

lemma stackValues_getD (cc : List (String × ℚ)) (cs : List String) (y0 : ℚ)
    (i : ℕ) (hi : i < cs.length) :
    (stackValues cc cs y0).getD i vDefault =
      { cluster := cs.getD i ""
        y0 := y0 + prefixCount cc cs i
        y1 := y0 + prefixCount cc cs (i + 1)
        count := lookupCount cc (cs.getD i "") } := by
  induction cs generalizing y0 i with
  | nil => simp at hi
  | cons c cs ih =>
    cases i with
    | zero =>
      simp [stackValues, prefixCount, List.take_succ_cons]
    | succ j =>
      have hj : j < cs.length := by simpa using hi
      simp only [stackValues, List.getD_cons_succ, List.getD_cons_zero]
      rw [ih (y0 + lookupCount cc c) j hj]
      simp [prefixCount_cons_succ, add_assoc]

lemma prefixCount_succ_eq (cc : List (String × ℚ)) (cs : List String)
    (i : ℕ) (hi : i < cs.length) :
    prefixCount cc cs (i + 1) = prefixCount cc cs i + lookupCount cc (cs.getD i "") := by
  induction cs generalizing i with
  | nil => simp at hi
  | cons c cs ih =>
    cases i with
    | zero => simp [prefixCount_cons_succ, prefixCount_zero]
    | succ j =>
      have hj : j < cs.length := by simpa using hi
      simp only [List.getD_cons_succ]
      rw [prefixCount_cons_succ, prefixCount_cons_succ, ih j hj, add_assoc]

lemma dayTotal_eq_prefixCount (cc : List (String × ℚ)) (cs : List String) :
    dayTotal cc cs = prefixCount cc cs cs.length := by
  simp [dayTotal, prefixCount, List.take_length]

lemma prefixCount_step_le (cc : List (String × ℚ)) (cs : List String)
    (hnn : ∀ k, 0 ≤ lookupCount cc k) (i : ℕ) :
    prefixCount cc cs i ≤ prefixCount cc cs (i + 1) := by
  by_cases hi : i < cs.length
  · rw [prefixCount_succ_eq cc cs i hi]
    have := hnn (cs.getD i "")
    linarith
  · have hle : cs.length ≤ i := Nat.le_of_not_lt hi
    unfold prefixCount
    rw [List.take_of_length_le hle, List.take_of_length_le (Nat.le_succ_of_le hle)]

lemma prefixCount_mono (cc : List (String × ℚ)) (cs : List String)
    (hnn : ∀ k, 0 ≤ lookupCount cc k) {i j : ℕ} (hij : i ≤ j) :
    prefixCount cc cs i ≤ prefixCount cc cs j := by
  induction j with
  | zero => simp_all
  | succ j ih =>
    rcases Nat.lt_or_ge i (j + 1) with h | h
    · exact le_trans (ih (Nat.lt_succ_iff.mp h)) (prefixCount_step_le cc cs hnn j)
    · have : i = j + 1 := le_antisymm hij h
      simp [this]

lemma prefixCount_nonneg (cc : List (String × ℚ)) (cs : List String)
    (hnn : ∀ k, 0 ≤ lookupCount cc k) (i : ℕ) :
    0 ≤ prefixCount cc cs i := by
  have := prefixCount_mono cc cs hnn (Nat.zero_le i)
  simpa [prefixCount_zero] using this

lemma mem_of_lookup_eq_some {cc : List (String × ℚ)} {k : String} {v : ℚ}
    (h : cc.lookup k = some v) : (k, v) ∈ cc := by
  induction cc with
  | nil => simp [List.lookup] at h
  | cons p cc ih =>
    rcases p with ⟨k1, v1⟩
    by_cases hk : k = k1
    · subst hk
      simp [List.lookup] at h
      simp [h]
    · have hb : (k == k1) = false := beq_false_of_ne hk
      simp only [List.lookup, hb] at h
      exact List.mem_cons_of_mem _ (ih h)

lemma lookupCount_nonneg (cc : List (String × ℚ))
    (h : ∀ p ∈ cc, 0 ≤ p.2) (k : String) : 0 ≤ lookupCount cc k := by
  unfold lookupCount
  cases hcc : cc.lookup k with
  | none => exact le_refl 0
  | some v => exact h (k, v) (mem_of_lookup_eq_some hcc)

lemma processedData_eq (fd : FlowData) (pd : ProcessedData)
    (hpd : processedData fd = some pd) :
    pd.stackedData = fd.daily_data.map (stackDay fd.clusters) ∧
    pd.dates = fd.daily_data.map (fun d => d.date) ∧
    pd.maxY = listMax1 ((fd.daily_data.map (stackDay fd.clusters)).map (fun d => d.total)) ∧
    pd.clusters = fd.clusters := by
  unfold processedData at hpd
  by_cases he : fd.daily_data.isEmpty
  · rw [if_pos he] at hpd
    exact absurd hpd (by simp)
  · rw [if_neg he] at hpd
    obtain rfl := Option.some.inj hpd
    exact ⟨rfl, rfl, rfl, rfl⟩

lemma stackDay_values (clusters : List String) (rec : DailyClusterCounts) :
    (stackDay clusters rec).values = stackValues rec.cluster_counts clusters 0 := rfl

lemma stackDay_total (clusters : List String) (rec : DailyClusterCounts) :
    (stackDay clusters rec).total = dayTotal rec.cluster_counts clusters := rfl

lemma daily_getD_eq (fd : FlowData) (d : ℕ) (hd : d < fd.daily_data.length) :
    fd.daily_data[d]? = some (fd.daily_data.getD d dayDefault) := by
  rw [List.getElem?_eq_getElem hd, List.getD_eq_getElem?_getD,
    List.getElem?_eq_getElem hd]
  rfl

/-- C1: for every FlowSnapshot with at least one day, each stacked day keeps
the snapshot cluster order, has y0 of the first entry equal to 0, satisfies
y1(i) = y0(i) + count(i) and y0(i+1) = y1(i), has total equal to y1 of the
last entry, and each count(i) is that day's count for cluster i, 0 when the
cluster key is absent from cluster_counts. -/
theorem stackBuilder_prefix_sums (fd : FlowData) (pd : ProcessedData)
    (hpd : processedData fd = some pd)
    (d : ℕ) (hd : d < fd.daily_data.length) :
    ∃ sd : StackedDay,
      pd.stackedData[d]? = some sd ∧
      sd = stackDay fd.clusters (fd.daily_data.getD d dayDefault) ∧
      sd.values.map StackValue.cluster = fd.clusters ∧
      (∀ i, i < sd.values.length →
        (sd.values.getD i vDefault).count =
          lookupCount (fd.daily_data.getD d dayDefault).cluster_counts
            (fd.clusters.getD i "")) ∧
      (0 < sd.values.length → (sd.values.getD 0 vDefault).y0 = 0) ∧
      (∀ i, i < sd.values.length →
        (sd.values.getD i vDefault).y1 =
          (sd.values.getD i vDefault).y0 + (sd.values.getD i vDefault).count) ∧
      (∀ i, i + 1 < sd.values.length →
        (sd.values.getD (i + 1) vDefault).y0 = (sd.values.getD i vDefault).y1) ∧
      (0 < sd.values.length →
        sd.total = (sd.values.getD (sd.values.length - 1) vDefault).y1) := by
  obtain ⟨hsd, _, _, _⟩ := processedData_eq fd pd hpd
  refine ⟨stackDay fd.clusters (fd.daily_data.getD d dayDefault), ?_, rfl,
    ?_, ?_, ?_, ?_, ?_, ?_⟩
  · rw [hsd, List.getElem?_map, daily_getD_eq fd d hd]
    rfl
  · exact stackValues_map_cluster _ _ _
  · intro i hi
    rw [stackDay_values, stackValues_length] at hi
    rw [stackDay_values, stackValues_getD _ _ _ i hi]
  · intro hpos
    rw [stackDay_values, stackValues_length] at hpos
    rw [stackDay_values, stackValues_getD _ _ _ 0 hpos]
    simp [prefixCount_zero]
  · intro i hi
    rw [stackDay_values, stackValues_length] at hi
    rw [stackDay_values, stackValues_getD _ _ _ i hi]
    simp [prefixCount_succ_eq _ _ i hi, add_assoc]
  · intro i hi
    rw [stackDay_values, stackValues_length] at hi
    have hi1 : i < fd.clusters.length := Nat.lt_of_succ_lt hi
    rw [stackDay_values, stackValues_getD _ _ _ (i + 1) hi,
      stackValues_getD _ _ _ i hi1]
  · intro hpos
    rw [stackDay_values, stackValues_length] at hpos
    have hlast : fd.clusters.length - 1 < fd.clusters.length := Nat.sub_lt hpos Nat.one_pos
    rw [stackDay_values, stackValues_length, stackValues_getD _ _ _ _ hlast]
    rw [stackDay_total, dayTotal_eq_prefixCount]
    have hn : fd.clusters.length - 1 + 1 = fd.clusters.length :=
      Nat.succ_pred_eq_of_pos hpos
    simp [hn]

/-- Witness for C1 at a concrete one-day snapshot. -/
theorem stackBuilder_prefix_sums_witness :
    ∃ sd : StackedDay,
      pdC1.stackedData[0]? = some sd ∧
      sd = stackDay fdC1.clusters (fdC1.daily_data.getD 0 dayDefault) ∧
      sd.values.map StackValue.cluster = fdC1.clusters ∧
      (∀ i, i < sd.values.length →
        (sd.values.getD i vDefault).count =
          lookupCount (fdC1.daily_data.getD 0 dayDefault).cluster_counts
            (fdC1.clusters.getD i "")) ∧
      (0 < sd.values.length → (sd.values.getD 0 vDefault).y0 = 0) ∧
      (∀ i, i < sd.values.length →
        (sd.values.getD i vDefault).y1 =
          (sd.values.getD i vDefault).y0 + (sd.values.getD i vDefault).count) ∧
      (∀ i, i + 1 < sd.values.length →
        (sd.values.getD (i + 1) vDefault).y0 = (sd.values.getD i vDefault).y1) ∧
      (0 < sd.values.length →
        sd.total = (sd.values.getD (sd.values.length - 1) vDefault).y1) :=
  stackBuilder_prefix_sums fdC1 pdC1
    (by simp [processedData, fdC1, pdC1, sdC1, stackDay, stackValues, dayTotal,
      lookupCount, List.lookup, listMax1])
    0 (by simp [fdC1])

/-! ## Maximum helper lemmas -/

lemma le_foldl_max (l : List ℚ) (a : ℚ) : a ≤ l.foldl max a := by
  induction l generalizing a with
  | nil => exact le_refl a
  | cons x xs ih => exact le_trans (le_max_left a x) (ih (max a x))

lemma mem_le_foldl_max (l : List ℚ) (a x : ℚ) (hx : x ∈ l) : x ≤ l.foldl max a := by
  induction l generalizing a with
  | nil => cases hx
  | cons b bs ih =>
    rcases List.mem_cons.mp hx with rfl | h
    · exact le_trans (le_max_right a x) (le_foldl_max bs (max a x))
    · exact ih (max a b) h

lemma one_le_listMax1 (l : List ℚ) : 1 ≤ listMax1 l := le_foldl_max l 1

lemma mem_le_listMax1 (l : List ℚ) (x : ℚ) (hx : x ∈ l) : x ≤ listMax1 l :=
  mem_le_foldl_max l 1 x hx

/-! ## Claim theorems: error handling and simple invariants -/

/-- C9: a FlowSnapshot with empty daily_data renders the defined no-data
message instead of a chart canvas; processedData and the scales memo are
null, so no stacking, scaling or drawing is attempted. -/
theorem emptyFlow_renders_noData (fd : FlowData) (dims : Dimensions)
    (h : fd.daily_data = []) :
    renderFlow fd = FlowView.noDataMessage "No flow data available" ∧
    processedData fd = none ∧ scalesOf fd dims = none := by
  have hp : processedData fd = none := by simp [processedData, h]
  exact ⟨by simp [renderFlow, hp], hp, by simp [scalesOf, hp]⟩

/-- Witness for C9 at the concrete empty snapshot. -/
theorem emptyFlow_renders_noData_witness :
    renderFlow fdC9 = FlowView.noDataMessage "No flow data available" ∧
    processedData fdC9 = none ∧
    scalesOf fdC9 { width := 800, height := 400 } = none :=
  emptyFlow_renders_noData fdC9 { width := 800, height := 400 } rfl

/-- C8: a click while a cluster is hovered toggles that cluster's selection
idempotently (selecting an unselected cluster selects it, clicking the
already-selected cluster clears the selection, so select then select equals
unselect), and notifies the host with the cluster name and the tooltip
date. -/
theorem click_toggles_selection (hovered selected : Option String)
    (tooltip : Option TooltipData) (c : String) (hh : hovered = some c) :
    (selected ≠ some c → (handleClick hovered selected tooltip).1 = some c) ∧
    (selected = some c → (handleClick hovered selected tooltip).1 = none) ∧
    (selected ≠ some c →
      (handleClick hovered (handleClick hovered selected tooltip).1 tooltip).1 = none) ∧
    (∀ t, tooltip = some t →
      (handleClick hovered selected tooltip).2 = some (c, t.date)) := by
  subst hh
  refine ⟨fun h => ?_, fun h => ?_, fun h => ?_, fun t ht => ?_⟩
  · simp [handleClick, h]
  · simp [handleClick, h]
  · simp [handleClick, h]
  · cases tooltip with
    | none => cases ht
    | some s => simp [handleClick, Option.some.inj ht]

/-- Witness for C8 at a concrete hovered cluster and tooltip. -/
theorem click_toggles_selection_witness :
    (handleClick (some "X") none (some tC8)).1 = some "X" ∧
    (handleClick (some "X") (handleClick (some "X") none (some tC8)).1 (some tC8)).1 = none ∧
    (handleClick (some "X") none (some tC8)).2 = some ("X", tC8.date) :=
  ⟨(click_toggles_selection (some "X") none (some tC8) "X" rfl).1 (by simp),
   (click_toggles_selection (some "X") none (some tC8) "X" rfl).2.2.1 (by simp),
   (click_toggles_selection (some "X") none (some tC8) "X" rfl).2.2.2 tC8 rfl⟩

/-- C3 counterexample: in the concrete snapshot gC3 the link lC3 has a
target id matching no node, yet its transformed image is in the link set
handed to the force solver, so dangling links are not excluded. -/
theorem dangling_link_not_dropped_cex :
    toGraphLink lC3 ∈ (transformedData gC3).2 ∧
    (∀ n ∈ gC3.nodes, n.id ≠ lC3.target) := by
  constructor
  · simp [transformedData, gC3]
  · intro n hn
    simp [gC3] at hn
    simp [hn, nodeA, lC3]

/-- C3 amended: transformedData performs no filtering at all: the link set
handed to the solver contains the image of every payload link, dangling or
not, and has the same length; the node set is the image of the payload
nodes, unaffected by links. -/
theorem transformedData_passthrough (g : ClusterGraphData) :
    (transformedData g).2.length = g.links.length ∧
    (∀ l ∈ g.links, toGraphLink l ∈ (transformedData g).2) ∧
    (transformedData g).1 = g.nodes.map toGraphNode ∧
    (transformedData g).1.length = g.nodes.length := by
  refine ⟨by simp [transformedData], fun l hl => ?_, rfl, by simp [transformedData]⟩
  exact List.mem_map_of_mem toGraphLink hl

/-- Witness for the amended C3 at the concrete dangling-link snapshot. -/
theorem transformedData_passthrough_witness :
    (transformedData gC3).2.length = gC3.links.length ∧
    toGraphLink lC3 ∈ (transformedData gC3).2 ∧
    (transformedData gC3).1.length = gC3.nodes.length :=
  ⟨(transformedData_passthrough gC3).1,
   (transformedData_passthrough gC3).2.1 lC3 (by simp [gC3]),
   (transformedData_passthrough gC3).2.2.2⟩

/-- C4: every scale denominator is floored to 1: maxPaperCount,
maxLinkStrength, the maxY of processedData, and the date-count range used
by xScale are all at least 1 and hence positive, so in this rational model
the node-radius, link-width, xScale and yScale divisions are never division
by zero. -/
theorem scale_denominators_floored (g : ClusterGraphData) (fd : FlowData)
    (pd : ProcessedData) :
    1 ≤ maxPaperCount g ∧ 1 ≤ maxLinkStrength g ∧
    (processedData fd = some pd → 1 ≤ pd.maxY) ∧
    (1 : ℤ) ≤ dateDenom pd := by
  refine ⟨one_le_listMax1 _, one_le_listMax1 _, fun hpd => ?_, le_max_right _ _⟩
  obtain ⟨_, _, hmax, _⟩ := processedData_eq fd pd hpd
  rw [hmax]
  exact one_le_listMax1 _

/-- Witness for C4 at concrete degenerate inputs: the empty graph and the
one-day snapshot. -/
theorem scale_denominators_floored_witness :
    1 ≤ maxPaperCount gC4 ∧ 1 ≤ maxLinkStrength gC4 ∧
    1 ≤ pdC1.maxY ∧ (1 : ℤ) ≤ dateDenom pdC1 :=
  ⟨(scale_denominators_floored gC4 fdC1 pdC1).1,
   (scale_denominators_floored gC4 fdC1 pdC1).2.1,
   (scale_denominators_floored gC4 fdC1 pdC1).2.2.1
     (by simp [processedData, fdC1, pdC1, sdC1, stackDay, stackValues, dayTotal,
       lookupCount, List.lookup, listMax1]),
   (scale_denominators_floored gC4 fdC1 pdC1).2.2.2⟩

/-- C5 counterexample: in gC5 the node nodeA has paper count 0 and the
snapshot maximum is 2; the collision exclusion radius is 66 while the claimed
value, the visual base radius plus the 40 unit padding, is 52, so the claim
fails at paperCount 0. -/
theorem collision_radius_cex :
    nodeA ∈ gC5.nodes ∧ nodeA.paperCount = 0 ∧
    collisionRadius (maxPaperCount gC5) nodeA.paperCount ≠
      nodeBaseSize nodeA.paperCount (maxPaperCount gC5) + 40 := by
  refine ⟨by simp [gC5], rfl, ?_⟩
  have hm : maxPaperCount gC5 = 2 := by
    simp [maxPaperCount, gC5, listMax1, nodeA, nodeB]
  rw [hm]
  show collisionRadius 2 nodeA.paperCount ≠ nodeBaseSize nodeA.paperCount 2 + 40
  simp [collisionRadius, nodeBaseSize, nodeA]

/-- C5 amended: the collision exclusion radius equals the visual base radius
plus the fixed 40 unit padding for every node whose paper count is nonzero;
at paper count 0 the JavaScript logical-or substitutes 1, so the radius is
the base radius of count 1 plus 40 instead. -/
theorem collision_radius_consistent (g : ClusterGraphData) (pc : ℚ) :
    (pc ≠ 0 → collisionRadius (maxPaperCount g) pc =
      nodeBaseSize pc (maxPaperCount g) + 40) ∧
    collisionRadius (maxPaperCount g) 0 =
      nodeBaseSize 1 (maxPaperCount g) + 40 := by
  constructor
  · intro h
    simp [collisionRadius, nodeBaseSize, h]
  · simp [collisionRadius, nodeBaseSize]

/-- Witness for the amended C5 at paper count 2 in the concrete snapshot. -/
theorem collision_radius_consistent_witness :
    collisionRadius (maxPaperCount gC5) 2 =
      nodeBaseSize 2 (maxPaperCount gC5) + 40 ∧
    collisionRadius (maxPaperCount gC5) 0 =
      nodeBaseSize 1 (maxPaperCount gC5) + 40 :=
  ⟨(collision_radius_consistent gC5 2).1 (by norm_num),
   (collision_radius_consistent gC5 2).2⟩

lemma isConnectedId_false_iff (g : ClusterGraphData) (id : String) :
    isConnectedId g id = false ↔ ∀ l ∈ g.links, l.source ≠ id ∧ l.target ≠ id := by
  simp [isConnectedId, not_or]

lemma mem_isolatedNodeIds (g : ClusterGraphData) (n : ClusterNode)
    (hn : n ∈ g.nodes) (h : isConnectedId g n.id = false) :
    n.id ∈ isolatedNodeIds g := by
  simp only [isolatedNodeIds, List.mem_map, List.mem_filter]
  exact ⟨n, ⟨hn, by simp [h]⟩, rfl⟩

lemma not_mem_isolatedNodeIds (g : ClusterGraphData) (id : String)
    (h : isConnectedId g id = true) : id ∉ isolatedNodeIds g := by
  intro hmem
  simp only [isolatedNodeIds, List.mem_map, List.mem_filter] at hmem
  obtain ⟨m, ⟨_, hm⟩, rfl⟩ := hmem
  rw [h] at hm
  cases hm

/-- C6: a node with zero incident links gets centering strength 0.15 on the
forceX and forceY callbacks, a node with at least one incident link gets
0.02, and at equal positive distance from the viewport center an isolated
node experiences strictly greater centering-force magnitude than a
connected node. -/
theorem isolated_nodes_stronger_centering (g : ClusterGraphData)
    (n : ClusterNode) (hn : n ∈ g.nodes) :
    ((∀ l ∈ g.links, l.source ≠ n.id ∧ l.target ≠ n.id) →
      centeringStrength g n.id = 0.15) ∧
    ((∃ l ∈ g.links, l.source = n.id ∨ l.target = n.id) →
      centeringStrength g n.id = 0.02) ∧
    (∀ m : ClusterNode, m ∈ g.nodes →
      (∀ l ∈ g.links, l.source ≠ n.id ∧ l.target ≠ n.id) →
      (∃ l ∈ g.links, l.source = m.id ∨ l.target = m.id) →
      ∀ dist : ℚ, 0 < dist →
        centeringForceMagnitude g m.id dist <
          centeringForceMagnitude g n.id dist) := by
  have hstr15 : (∀ l ∈ g.links, l.source ≠ n.id ∧ l.target ≠ n.id) →
      centeringStrength g n.id = 0.15 := by
    intro h
    have hiso : isConnectedId g n.id = false := (isConnectedId_false_iff g n.id).mpr h
    have hmem : n.id ∈ isolatedNodeIds g := mem_isolatedNodeIds g n hn hiso
    have hc : (isolatedNodeIds g).contains n.id = true := List.elem_iff.mpr hmem
    unfold centeringStrength
    rw [if_pos hc]
  have hstr02 : ∀ id : String, (∃ l ∈ g.links, l.source = id ∨ l.target = id) →
      centeringStrength g id = 0.02 := by
    intro id h
    have hcon : isConnectedId g id = true := by
      obtain ⟨l, hl, hor⟩ := h
      simp only [isConnectedId, List.any_eq_true]
      refine ⟨l, hl, ?_⟩
      rcases hor with h1 | h1 <;> simp [h1]
    have hnm : id ∉ isolatedNodeIds g := not_mem_isolatedNodeIds g id hcon
    have hc : ¬ (isolatedNodeIds g).contains id = true := fun hcc =>
      hnm (List.elem_iff.mp hcc)
    unfold centeringStrength
    rw [if_neg hc]
  refine ⟨hstr15, hstr02 n.id, ?_⟩
  intro m _ hiso hcon dist hdist
  unfold centeringForceMagnitude
  rw [hstr15 hiso, hstr02 m.id hcon]
  have : (0.02 : ℚ) < 0.15 := by norm_num
  exact mul_lt_mul_of_pos_right this hdist

/-- Witness for C6: in gC6 the isolated node a is pulled strictly harder
than the connected node b at distance 1. -/
theorem isolated_nodes_stronger_centering_witness :
    centeringForceMagnitude gC6 nodeB.id 1 < centeringForceMagnitude gC6 nodeA.id 1 :=
  (isolated_nodes_stronger_centering gC6 nodeA (by simp [gC6])).2.2 nodeB
    (by simp [gC6])
    (by intro l hl; simp [gC6] at hl; simp [hl, nodeA])
    ⟨{ source := "b", target := "c", sharedCount := 1, sharedPaperIds := [] },
      by simp [gC6], Or.inl rfl⟩
    1 (by norm_num)

/-- Case analysis of handleMouseMove: either it resets hover and tooltip, or
the scan found a band and the tooltip is rebuilt from the refound value. -/
lemma handleMouseMove_cases (pd : ProcessedData) (dims : Dimensions) (x y : ℚ)
    (tPrev : Option TooltipData) :
    handleMouseMove pd dims x y tPrev = (none, none) ∨
    (∃ day v w, pd.stackedData[(clampedIdx pd dims x).toNat]? = some day ∧
      day.values.find? (bandHit pd dims y) = some v ∧
      day.values.find? (fun s => s.cluster == v.cluster) = some w ∧
      handleMouseMove pd dims x y tPrev =
        (some v.cluster,
         some { date := day.date, cluster := v.cluster, count := w.count,
                total := day.total })) ∨
    (∃ day v, pd.stackedData[(clampedIdx pd dims x).toNat]? = some day ∧
      day.values.find? (bandHit pd dims y) = some v ∧
      day.values.find? (fun s => s.cluster == v.cluster) = none ∧
      handleMouseMove pd dims x y tPrev = (some v.cluster, tPrev)) := by
  unfold handleMouseMove
  split
  · exact Or.inl rfl
  · split
    next hday => exact Or.inl rfl
    next day hday =>
      split
      next hfind => exact Or.inl rfl
      next v hfind =>
        split
        next w hfind2 => exact Or.inr (Or.inl ⟨day, v, w, hday, hfind, hfind2, rfl⟩)
        next hfind2 => exact Or.inr (Or.inr ⟨day, v, hday, hfind, hfind2, rfl⟩)

lemma bandHit_true_iff (pd : ProcessedData) (dims : Dimensions) (y : ℚ)
    (v : StackValue) :
    bandHit pd dims y v = true ↔
      yScale pd dims v.y1 ≤ y ∧ y ≤ yScale pd dims v.y0 ∧ 0 < v.count := by
  simp [bandHit, and_assoc]

/-- C7: the flow-chart hit scan never resolves a zero-count band: whenever
handleMouseMove reports a hovered cluster, some band of the matched day
carries that cluster name and a strictly positive count; and when no cluster
is hovered no tooltip is produced. -/
theorem hitScan_never_zero_count (pd : ProcessedData) (dims : Dimensions)
    (x y : ℚ) (tPrev : Option TooltipData) :
    (∀ c, (handleMouseMove pd dims x y tPrev).1 = some c →
      ∃ day, pd.stackedData[(clampedIdx pd dims x).toNat]? = some day ∧
        ∃ v ∈ day.values, v.cluster = c ∧ 0 < v.count) ∧
    ((handleMouseMove pd dims x y tPrev).1 = none →
      (handleMouseMove pd dims x y tPrev).2 = none) := by
  rcases handleMouseMove_cases pd dims x y tPrev with h |
    ⟨day, v, w, hday, hfind, _, h⟩ | ⟨day, v, hday, hfind, _, h⟩
  · rw [h]
    refine ⟨?_, ?_⟩
    · intro c hc
      cases hc
    · intro _
      rfl
  · rw [h]
    constructor
    · intro c hc
      obtain rfl : v.cluster = c := Option.some.inj hc
      have hp := (bandHit_true_iff pd dims y v).mp (List.find?_some hfind)
      exact ⟨day, hday, v, List.mem_of_find?_eq_some hfind, rfl, hp.2.2⟩
    · intro hc
      cases hc
  · rw [h]
    constructor
    · intro c hc
      obtain rfl : v.cluster = c := Option.some.inj hc
      have hp := (bandHit_true_iff pd dims y v).mp (List.find?_some hfind)
      exact ⟨day, hday, v, List.mem_of_find?_eq_some hfind, rfl, hp.2.2⟩
    · intro hc
      cases hc

/-- Witness for C7: at the concrete pointer position the scan resolves
cluster X, whose count that day is 3. -/
theorem hitScan_never_zero_count_witness :
    ∃ day, pdC1.stackedData[(clampedIdx pdC1 dimsW 60).toNat]? = some day ∧
      ∃ v ∈ day.values, v.cluster = "X" ∧ 0 < v.count :=
  (hitScan_never_zero_count pdC1 dimsW 60 220 none).1 "X"
    (by norm_num [handleMouseMove, pdC1, sdC1, dimsW, clampedIdx, jsRound,
      innerWidth, innerHeight, marginLeft, marginRight, marginTop, marginBottom,
      bandHit, yScale, List.find?])

/-! ## Helper lemmas for the hit-test left-inverse theorem -/

lemma getD_mem {α : Type} (l : List α) (n : ℕ) (hn : n < l.length) (dflt : α) :
    l.getD n dflt ∈ l := by
  rw [List.getD_eq_getElem?_getD, List.getElem?_eq_getElem hn]
  exact List.getElem_mem hn

lemma jsRound_intCast (n : ℤ) : jsRound (n : ℚ) = n := by
  unfold jsRound
  rw [Int.floor_eq_iff]
  constructor
  · linarith
  · linarith

lemma yScale_le_iff (pd : ProcessedData) (dims : Dimensions)
    (hm : 0 < pd.maxY) (hih : 0 < innerHeight dims) (a b : ℚ) :
    yScale pd dims a ≤ yScale pd dims b ↔ b ≤ a := by
  unfold yScale
  constructor
  · intro h
    have h1 : (b / pd.maxY) * innerHeight dims ≤ (a / pd.maxY) * innerHeight dims := by
      linarith
    have h2 : b / pd.maxY ≤ a / pd.maxY :=
      (mul_le_mul_iff_of_pos_right hih).mp h1
    exact (div_le_div_iff_of_pos_right hm).mp h2
  · intro h
    have h2 : b / pd.maxY ≤ a / pd.maxY := (div_le_div_iff_of_pos_right hm).mpr h
    have h1 : (b / pd.maxY) * innerHeight dims ≤ (a / pd.maxY) * innerHeight dims :=
      (mul_le_mul_iff_of_pos_right hih).mpr h2
    linarith

lemma jsIndexOf_nodup_getD (l : List String) (hl : l.Nodup) (d : ℕ)
    (hd : d < l.length) : jsIndexOf l (l.getD d "") = d := by
  induction l generalizing d with
  | nil => simp at hd
  | cons a t ih =>
    cases d with
    | zero =>
      simp only [List.getD_cons_zero]
      unfold jsIndexOf
      rw [if_pos rfl]
      simp
    | succ m =>
      have hm : m < t.length := by simpa using hd
      have hmem : t.getD m "" ∈ t := getD_mem t m hm ""
      have hne : a ≠ t.getD m "" := by
        intro h
        exact (List.nodup_cons.mp hl).1 (h ▸ hmem)
      simp only [List.getD_cons_succ]
      unfold jsIndexOf
      rw [if_neg hne, ih (List.nodup_cons.mp hl).2 m hm]
      rw [if_neg (by omega : ¬ (m : ℤ) = -1)]
      push_cast
      ring

lemma find?_getD_first {α : Type} (p : α → Bool) (l : List α) (dflt : α) (c : ℕ)
    (hc : c < l.length)
    (hbefore : ∀ j, j < c → p (l.getD j dflt) = false)
    (hp : p (l.getD c dflt) = true) :
    l.find? p = some (l.getD c dflt) := by
  induction l generalizing c with
  | nil => simp at hc
  | cons a t ih =>
    cases c with
    | zero =>
      simp only [List.getD_cons_zero] at hp ⊢
      exact List.find?_cons_of_pos t hp
    | succ m =>
      have h0 : p a = false := by simpa using hbefore 0 (Nat.succ_pos m)
      rw [List.find?_cons_of_neg t (by simp [h0])]
      simp only [List.getD_cons_succ] at hp ⊢
      exact ih m (by simpa using hc)
        (fun j hj => by simpa using hbefore (j + 1) (Nat.succ_lt_succ hj)) hp

lemma dates_getD (fd : FlowData) (d : ℕ) (hd : d < fd.daily_data.length) :
    (fd.daily_data.map (fun r => r.date)).getD d "" =
      (fd.daily_data.getD d dayDefault).date := by
  rw [List.getD_eq_getElem?_getD, List.getElem?_eq_getElem (by simpa using hd),
    List.getElem_map, List.getD_eq_getElem?_getD, List.getElem?_eq_getElem hd]
  rfl

lemma clampedIdx_xScale (pd : ProcessedData) (dims : Dimensions)
    (hiw : 0 < innerWidth dims) (d : ℕ) (hd : d < pd.dates.length)
    (hnd : pd.dates.Nodup) :
    (clampedIdx pd dims (xScale pd dims (pd.dates.getD d ""))).toNat = d := by
  have hidx : jsIndexOf pd.dates (pd.dates.getD d "") = (d : ℤ) :=
    jsIndexOf_nodup_getD pd.dates hnd d hd
  unfold clampedIdx xScale
  dsimp only
  rw [hidx]
  have h2 : (marginLeft + ((d : ℤ) : ℚ) / ((dateDenom pd : ℤ) : ℚ) * innerWidth dims -
      marginLeft) / innerWidth dims * ((pd.dates.length : ℚ) - 1) =
      ((d : ℚ) / ((dateDenom pd : ℤ) : ℚ)) * ((pd.dates.length : ℚ) - 1) := by
    have hiw0 : innerWidth dims ≠ 0 := ne_of_gt hiw
    have h3 : marginLeft + ((d : ℤ) : ℚ) / ((dateDenom pd : ℤ) : ℚ) * innerWidth dims -
        marginLeft = ((d : ℚ) / ((dateDenom pd : ℤ) : ℚ)) * innerWidth dims := by
      push_cast
      ring
    rw [h3, mul_div_cancel_right₀ _ hiw0]
  rw [h2]
  by_cases hn : pd.dates.length = 1
  · have hd0 : d = 0 := by omega
    subst hd0
    have hdd : dateDenom pd = 1 := by
      unfold dateDenom
      omega
    rw [hn, hdd]
    norm_num [jsRound]
  · have hn2 : 2 ≤ pd.dates.length := by omega
    have hdd : dateDenom pd = (pd.dates.length : ℤ) - 1 := by
      unfold dateDenom
      omega
    rw [hdd]
    have hne : (((pd.dates.length : ℤ) - 1 : ℤ) : ℚ) ≠ 0 := by
      push_cast
      have : (2 : ℚ) ≤ (pd.dates.length : ℚ) := by exact_mod_cast hn2
      linarith
    have hcancel : (d : ℚ) / (((pd.dates.length : ℤ) - 1 : ℤ) : ℚ) *
        ((pd.dates.length : ℚ) - 1) = ((d : ℤ) : ℚ) := by
      push_cast at hne ⊢
      field_simp
    rw [hcancel, jsRound_intCast]
    have h3 : min (d : ℤ) ((pd.dates.length : ℤ) - 1) = (d : ℤ) := by omega
    have h4 : max 0 (d : ℤ) = (d : ℤ) := by omega
    rw [h3, h4]
    simp

/-- C2: hit-testing is a left-inverse of the scale functions: for every
FlowSnapshot with at least one day, non-negative counts and distinct dates,
for every day d and cluster c whose count on d is strictly positive, a
pointer at (xScale of the day date, yScale of the band midpoint (y0+y1)/2)
makes handleMouseMove resolve exactly cluster c as the hovered cluster. -/
theorem hitTest_left_inverse (fd : FlowData) (pd : ProcessedData)
    (dims : Dimensions) (hpd : processedData fd = some pd)
    (hw : 210 < dims.width) (hh : 70 < dims.height)
    (hnn : ∀ day ∈ fd.daily_data, ∀ p ∈ day.cluster_counts, 0 ≤ p.2)
    (hnd : (fd.daily_data.map (fun r => r.date)).Nodup)
    (d : ℕ) (hd : d < fd.daily_data.length)
    (c : ℕ) (hc : c < fd.clusters.length)
    (hcount : 0 < lookupCount (fd.daily_data.getD d dayDefault).cluster_counts
      (fd.clusters.getD c ""))
    (tPrev : Option TooltipData) :
    (handleMouseMove pd dims
      (xScale pd dims (fd.daily_data.getD d dayDefault).date)
      (yScale pd dims
        ((((stackDay fd.clusters (fd.daily_data.getD d dayDefault)).values.getD c vDefault).y0 +
          ((stackDay fd.clusters (fd.daily_data.getD d dayDefault)).values.getD c vDefault).y1) / 2))
      tPrev).1 = some (fd.clusters.getD c "") := by
  obtain ⟨hsd, hdates, hmax, hcl⟩ := processedData_eq fd pd hpd
  set rec := fd.daily_data.getD d dayDefault with hrec
  set cc := rec.cluster_counts with hcc
  have hrecmem : rec ∈ fd.daily_data := getD_mem _ d hd _
  have hk : ∀ k, 0 ≤ lookupCount cc k := lookupCount_nonneg cc (hnn rec hrecmem)
  have hv : (stackDay fd.clusters rec).values.getD c vDefault =
      { cluster := fd.clusters.getD c "", y0 := 0 + prefixCount cc fd.clusters c,
        y1 := 0 + prefixCount cc fd.clusters (c + 1),
        count := lookupCount cc (fd.clusters.getD c "") } := by
    rw [stackDay_values, stackValues_getD _ _ _ c hc]
  set mid := (((stackDay fd.clusters rec).values.getD c vDefault).y0 +
      ((stackDay fd.clusters rec).values.getD c vDefault).y1) / 2 with hmid
  have hmid_eq : mid = prefixCount cc fd.clusters c +
      lookupCount cc (fd.clusters.getD c "") / 2 := by
    rw [hmid, hv]
    show ((0 + prefixCount cc fd.clusters c) +
      (0 + prefixCount cc fd.clusters (c + 1))) / 2 = _
    rw [prefixCount_succ_eq cc fd.clusters c hc]
    ring
  have hSc_lt_mid : prefixCount cc fd.clusters c < mid := by
    rw [hmid_eq]
    linarith
  have hmid_lt_Sc1 : mid < prefixCount cc fd.clusters (c + 1) := by
    rw [hmid_eq, prefixCount_succ_eq cc fd.clusters c hc]
    linarith
  have hS0 : 0 ≤ prefixCount cc fd.clusters c := prefixCount_nonneg cc fd.clusters hk c
  have hmidpos : 0 < mid := lt_of_le_of_lt hS0 hSc_lt_mid
  have h1my : 1 ≤ pd.maxY := by
    rw [hmax]
    exact one_le_listMax1 _
  have hmypos : (0 : ℚ) < pd.maxY := by linarith
  have htot_le : prefixCount cc fd.clusters fd.clusters.length ≤ pd.maxY := by
    rw [hmax]
    have hmem2 : (stackDay fd.clusters rec).total ∈
        (fd.daily_data.map (stackDay fd.clusters)).map (fun s => s.total) :=
      List.mem_map_of_mem _ (List.mem_map_of_mem _ hrecmem)
    have hle := mem_le_listMax1 _ _ hmem2
    rw [stackDay_total, dayTotal_eq_prefixCount] at hle
    exact hle
  have hmid_le_maxY : mid ≤ pd.maxY :=
    le_trans (le_of_lt hmid_lt_Sc1)
      (le_trans (prefixCount_mono cc fd.clusters hk (by omega)) htot_le)
  have hIH : innerHeight dims = dims.height - marginTop - marginBottom := rfl
  have hIW : innerWidth dims = dims.width - marginLeft - marginRight := rfl
  have hmT : marginTop = 20 := rfl
  have hmB : marginBottom = 50 := rfl
  have hmL : marginLeft = 60 := rfl
  have hmR : marginRight = 150 := rfl
  have hih : 0 < innerHeight dims := by
    rw [hIH, hmT, hmB]
    linarith
  have hiw : 0 < innerWidth dims := by
    rw [hIW, hmL, hmR]
    linarith
  set y := yScale pd dims mid with hy
  have hy_ge : ¬ y < marginTop := by
    rw [not_lt, hy]
    unfold yScale
    have hq : mid / pd.maxY ≤ 1 := (div_le_one hmypos).mpr hmid_le_maxY
    have hq2 := mul_le_mul_of_nonneg_right hq (le_of_lt hih)
    rw [one_mul] at hq2
    linarith
  have hy_le : ¬ y > dims.height - marginBottom := by
    rw [not_lt, hy]
    unfold yScale
    have h0 : 0 ≤ (mid / pd.maxY) * innerHeight dims := by positivity
    linarith [hIH]
  have hdatelen : pd.dates.length = fd.daily_data.length := by
    rw [hdates]
    simp
  have hdnodup : pd.dates.Nodup := by
    rw [hdates]
    exact hnd
  have hdate_getD : pd.dates.getD d "" = rec.date := by
    rw [hdates, hrec]
    exact dates_getD fd d hd
  set x := xScale pd dims rec.date with hx
  have hx_eq : x = marginLeft + ((d : ℚ) / ((dateDenom pd : ℤ) : ℚ)) * innerWidth dims := by
    rw [hx, ← hdate_getD]
    unfold xScale
    rw [jsIndexOf_nodup_getD pd.dates hdnodup d (by rw [hdatelen]; exact hd)]
    norm_num
  have hdd1 : (1 : ℤ) ≤ dateDenom pd := le_max_right _ _
  have hddq : (0 : ℚ) < ((dateDenom pd : ℤ) : ℚ) := by
    exact_mod_cast lt_of_lt_of_le zero_lt_one hdd1
  have hdlt : (d : ℤ) ≤ dateDenom pd := by
    unfold dateDenom
    have hdn : d < pd.dates.length := by
      rw [hdatelen]
      exact hd
    omega
  have hfrac1 : (d : ℚ) / ((dateDenom pd : ℤ) : ℚ) ≤ 1 := by
    rw [div_le_one hddq]
    exact_mod_cast hdlt
  have hfrac0 : 0 ≤ (d : ℚ) / ((dateDenom pd : ℤ) : ℚ) := by positivity
  have hx_ge : ¬ x < marginLeft := by
    rw [not_lt, hx_eq]
    have := mul_nonneg hfrac0 (le_of_lt hiw)
    linarith
  have hx_le : ¬ x > dims.width - marginRight := by
    rw [not_lt, hx_eq]
    have h2 := mul_le_mul_of_nonneg_right hfrac1 (le_of_lt hiw)
    rw [one_mul] at h2
    linarith [hIW]
  have hout : ¬ (x < marginLeft ∨ x > dims.width - marginRight ∨
      y < marginTop ∨ y > dims.height - marginBottom) := by
    push_neg
    exact ⟨not_lt.mp hx_ge, not_lt.mp hx_le, not_lt.mp hy_ge, not_lt.mp hy_le⟩
  have hclamp : (clampedIdx pd dims x).toNat = d := by
    have hcl2 := clampedIdx_xScale pd dims hiw d (by rw [hdatelen]; exact hd) hdnodup
    rw [hdate_getD] at hcl2
    rw [hx]
    exact hcl2
  have hday : pd.stackedData[d]? = some (stackDay fd.clusters rec) := by
    rw [hsd, List.getElem?_map, hrec, daily_getD_eq fd d hd]
    rfl
  have hlenv : (stackDay fd.clusters rec).values.length = fd.clusters.length := by
    rw [stackDay_values, stackValues_length]
  have hfind : (stackDay fd.clusters rec).values.find? (bandHit pd dims y) =
      some ((stackDay fd.clusters rec).values.getD c vDefault) := by
    apply find?_getD_first (bandHit pd dims y) _ vDefault c (by rw [hlenv]; exact hc)
    · intro j hj
      have hjc : j < fd.clusters.length := lt_trans hj hc
      rw [stackDay_values, stackValues_getD _ _ _ j hjc]
      apply Bool.eq_false_iff.mpr
      intro ht
      obtain ⟨h1, -, -⟩ := (bandHit_true_iff _ _ _ _).mp ht
      rw [hy, yScale_le_iff pd dims hmypos hih] at h1
      have h1e : mid ≤ 0 + prefixCount cc fd.clusters (j + 1) := h1
      have hmono : prefixCount cc fd.clusters (j + 1) ≤ prefixCount cc fd.clusters c :=
        prefixCount_mono cc fd.clusters hk (by omega)
      linarith
    · rw [stackDay_values, stackValues_getD _ _ _ c hc]
      apply (bandHit_true_iff _ _ _ _).mpr
      refine ⟨?_, ?_, ?_⟩
      · rw [hy, yScale_le_iff pd dims hmypos hih]
        show mid ≤ 0 + prefixCount cc fd.clusters (c + 1)
        linarith
      · rw [hy, yScale_le_iff pd dims hmypos hih]
        show 0 + prefixCount cc fd.clusters c ≤ mid
        linarith
      · show (0 : ℚ) < lookupCount cc (fd.clusters.getD c "")
        exact hcount
  have hvc : ((stackDay fd.clusters rec).values.getD c vDefault).cluster =
      fd.clusters.getD c "" := by rw [hv]
  unfold handleMouseMove
  rw [if_neg hout, hclamp, hday]
  simp only [hfind]
  cases hf2 : (stackDay fd.clusters rec).values.find?
      (fun w => w.cluster == ((stackDay fd.clusters rec).values.getD c vDefault).cluster) with
  | some w =>
    simp only [hf2]
    rw [hvc]
  | none =>
    simp only [hf2]
    rw [hvc]

/-- Witness for C2: with the one-day snapshot and 810 by 470 canvas, the
pointer at the X band midpoint resolves cluster X. -/
theorem hitTest_left_inverse_witness :
    (handleMouseMove pdC1 dimsW
      (xScale pdC1 dimsW (fdC1.daily_data.getD 0 dayDefault).date)
      (yScale pdC1 dimsW
        ((((stackDay fdC1.clusters (fdC1.daily_data.getD 0 dayDefault)).values.getD 0 vDefault).y0 +
          ((stackDay fdC1.clusters (fdC1.daily_data.getD 0 dayDefault)).values.getD 0 vDefault).y1) / 2))
      none).1 = some (fdC1.clusters.getD 0 "") :=
  hitTest_left_inverse fdC1 pdC1 dimsW
    (by simp [processedData, fdC1, pdC1, sdC1, stackDay, stackValues, dayTotal,
      lookupCount, List.lookup, listMax1])
    (by norm_num [dimsW]) (by norm_num [dimsW])
    (by
      intro day hday p hp
      simp [fdC1] at hday
      subst hday
      simp [fdC1] at hp
      rcases hp with h | h <;> simp [h])
    (by simp [fdC1])
    0 (by simp [fdC1])
    0 (by simp [fdC1])
    (by norm_num [fdC1, dayDefault, lookupCount, List.lookup])
    none

/-! ## Tooltip emission soundness -/

lemma stackValues_count_lookup (cc : List (String × ℚ)) (cs : List String)
    (y0 : ℚ) : ∀ u ∈ stackValues cc cs y0, u.count = lookupCount cc u.cluster := by
  induction cs generalizing y0 with
  | nil =>
    intro u hu
    simp [stackValues] at hu
  | cons c cs ih =>
    intro u hu
    simp only [stackValues, List.mem_cons] at hu
    rcases hu with rfl | hu
    · rfl
    · exact ih (y0 + lookupCount cc c) u hu

lemma stackValues_cluster_mem (cc : List (String × ℚ)) (cs : List String)
    (y0 : ℚ) (u : StackValue) (hu : u ∈ stackValues cc cs y0) :
    u.cluster ∈ cs := by
  rw [← stackValues_map_cluster cc cs y0]
  exact List.mem_map_of_mem _ hu

lemma count_le_dayTotal (cc : List (String × ℚ)) (cs : List String)
    (hk : ∀ k, 0 ≤ lookupCount cc k) (k : String) (hks : k ∈ cs) :
    lookupCount cc k ≤ dayTotal cc cs := by
  unfold dayTotal
  apply List.single_le_sum
  · intro q hq
    obtain ⟨c2, _, rfl⟩ := List.mem_map.mp hq
    exact hk c2
  · exact List.mem_map_of_mem _ hks

/-- C10 amended: whenever the flow-chart hit-test emits a tooltip, the
matched band's count is strictly positive and the day's total is at least
that count, so the percentage Math.round(100 * count / total) is a
well-defined integer between 0 and 100 (it can be 0 for small positive
ratios, so the lower end is 0, not 1); the division is never by zero. -/
theorem tooltip_percent_bounds (fd : FlowData) (pd : ProcessedData)
    (dims : Dimensions) (x y : ℚ) (tPrev : Option TooltipData)
    (hpd : processedData fd = some pd)
    (hnn : ∀ day ∈ fd.daily_data, ∀ p ∈ day.cluster_counts, 0 ≤ p.2)
    (t : TooltipData)
    (ht : (handleMouseMove pd dims x y tPrev).2 = some t) :
    0 < t.count ∧ t.count ≤ t.total ∧
    0 ≤ tooltipPercent t ∧ tooltipPercent t ≤ 100 := by
  obtain ⟨hsd, -, -, -⟩ := processedData_eq fd pd hpd
  rcases handleMouseMove_cases pd dims x y tPrev with h |
    ⟨day, v, w, hday, hfind, hfind2, h⟩ | ⟨day, v, hday, hfind, hfind2, h⟩
  · rw [h] at ht
    cases ht
  · rw [h] at ht
    obtain rfl := Option.some.inj ht
    have hdaymem : day ∈ pd.stackedData := List.getElem?_mem hday
    rw [hsd] at hdaymem
    obtain ⟨rec, hrecmem, rfl⟩ := List.mem_map.mp hdaymem
    have hk : ∀ k, 0 ≤ lookupCount rec.cluster_counts k :=
      lookupCount_nonneg _ (hnn rec hrecmem)
    have hvmem : v ∈ (stackDay fd.clusters rec).values :=
      List.mem_of_find?_eq_some hfind
    have hwmem : w ∈ (stackDay fd.clusters rec).values :=
      List.mem_of_find?_eq_some hfind2
    have hwcl : w.cluster = v.cluster := by
      have hb := List.find?_some hfind2
      simpa using hb
    rw [stackDay_values] at hvmem hwmem
    have hvcount : v.count = lookupCount rec.cluster_counts v.cluster :=
      stackValues_count_lookup _ _ _ v hvmem
    have hwcount : w.count = lookupCount rec.cluster_counts w.cluster :=
      stackValues_count_lookup _ _ _ w hwmem
    have hvpos : 0 < v.count :=
      ((bandHit_true_iff _ _ _ _).mp (List.find?_some hfind)).2.2
    have hwpos : 0 < w.count := by
      rw [hwcount, hwcl, ← hvcount]
      exact hvpos
    have hcle : w.count ≤ (stackDay fd.clusters rec).total := by
      rw [stackDay_total, hwcount]
      exact count_le_dayTotal _ _ hk w.cluster
        (stackValues_cluster_mem _ _ _ w hwmem)
    have htotpos : (0 : ℚ) < (stackDay fd.clusters rec).total :=
      lt_of_lt_of_le hwpos hcle
    refine ⟨hwpos, hcle, ?_, ?_⟩
    · unfold tooltipPercent jsRound
      apply Int.floor_nonneg.mpr
      have h1 : 0 < w.count / (stackDay fd.clusters rec).total :=
        div_pos hwpos htotpos
      show (0 : ℚ) ≤ w.count / (stackDay fd.clusters rec).total * 100 + 1 / 2
      nlinarith
    · unfold tooltipPercent jsRound
      have hle1 : w.count / (stackDay fd.clusters rec).total ≤ 1 :=
        (div_le_one htotpos).mpr hcle
      have hlt : (w.count / (stackDay fd.clusters rec).total * 100 + 1 / 2 : ℚ) <
          101 := by nlinarith
      have hfl : ⌊(w.count / (stackDay fd.clusters rec).total * 100 + 1 / 2 : ℚ)⌋ <
          101 := Int.floor_lt.mpr (by exact_mod_cast hlt)
      show ⌊(w.count / (stackDay fd.clusters rec).total * 100 + 1 / 2 : ℚ)⌋ ≤ 100
      omega
  · exfalso
    have hvmem : v ∈ day.values := List.mem_of_find?_eq_some hfind
    have hnone := List.find?_eq_none.mp hfind2 v hvmem
    simp at hnone

/-- C10 counterexample: with counts X 1 and Y 299 the hit-test at the X
band midpoint emits a tooltip with count 1 and total 300, whose rendered
percentage Math.round(100 * 1 / 300) is 0, outside the claimed range 1 to
100. -/
theorem tooltip_percent_zero_cex :
    (handleMouseMove pdC10 dimsW 60 (1258 / 3) none).2 = some tC10 ∧
    tooltipPercent tC10 = 0 := by
  constructor
  · norm_num [handleMouseMove, pdC10, sdC10, tC10, dimsW, clampedIdx, jsRound,
      innerWidth, innerHeight, marginLeft, marginRight, marginTop, marginBottom,
      bandHit, yScale, List.find?]
  · norm_num [tooltipPercent, tC10, jsRound]

/-- Witness for the amended C10 at the concrete emitted tooltip. -/
theorem tooltip_percent_bounds_witness :
    0 < tC10.count ∧ tC10.count ≤ tC10.total ∧
    0 ≤ tooltipPercent tC10 ∧ tooltipPercent tC10 ≤ 100 :=
  tooltip_percent_bounds fdC10 pdC10 dimsW 60 (1258 / 3) none
    (by
      simp [processedData, fdC10, pdC10, sdC10, stackDay, stackValues, dayTotal,
        lookupCount, List.lookup, listMax1]
      norm_num)
    (by
      intro day hday p hp
      simp [fdC10] at hday
      subst hday
      simp [fdC10] at hp
      rcases hp with h | h <;> simp [h])
    tC10
    (by norm_num [handleMouseMove, pdC10, sdC10, tC10, dimsW, clampedIdx, jsRound,
      innerWidth, innerHeight, marginLeft, marginRight, marginTop, marginBottom,
      bandHit, yScale, List.find?])

end PaperConnector
